import Mathlib

/-!
Verification of the `setup.py` provisioning script of flux-fp8-setup.

The script is a linear sequence of effectful steps: printing, invoking
external commands via `subprocess.run`, querying and mutating the
filesystem (`os.path.exists`, `os.makedirs`, `os.chdir`), copying the
process environment, and exiting (`sys.exit`).  We embed it shallowly as
a state-passing interpreter: a computation takes a `PyState` (tracked
filesystem paths, current working directory, process environment) and
returns an `Outcome` (normal value, `SystemExit`, or an ordinary Python
exception), the updated state, and the trace of observable events
(prints, command executions, directory creations, directory changes).
External commands are black boxes: an `Oracle` supplies, per invocation,
the exit outcome of the child and its effect on the tracked filesystem.
Wall-clock timing (`time.time` and float formatting) is abstracted: the
oracle supplies the formatted duration string.
-/

namespace FluxSetup

/-- An environment-variable map, modelling a Python `dict` of strings
(such as `os.environ` or its copy). -/
abbrev Env := List (String × String)

/-- Dictionary assignment `d[k] = v`: replace the binding of `k` if
present, otherwise append it. -/
def setVar : Env → String → String → Env
  | [], k, v => [(k, v)]
  | (k0, v0) :: rest, k, v =>
      if k0 = k then (k, v) :: rest else (k0, v0) :: setVar rest k v

/-- Outcome of spawning one external command: the child ran and exited
with the given code, or the executable could not be found/spawned
(Python raises `FileNotFoundError`). -/
inductive CmdOutcome where
  | exit (code : Nat)
  | notFound
deriving DecidableEq

/-- The black-box behaviour of the outside world: for each command
invocation (argument vector, optional environment override, optional
working directory, current tracked filesystem) the outcome and the
resulting tracked filesystem; plus the formatted duration string that
abstracts the wall-clock timing of the run. -/
structure Oracle where
  runCmd : List String → Option Env → Option String → List String → CmdOutcome × List String
  durationStr : String

/-- Python exceptions the script can raise or handle:
`subprocess.CalledProcessError` (child exited non-zero under
`check=True`) and `FileNotFoundError` (executable not spawnable, or
`os.chdir` target missing — modelled with the path as a one-element
argument vector). -/
inductive Exc where
  | calledProcessError (command : List String) (code : Nat)
  | fileNotFoundError (command : List String)
deriving DecidableEq

/-- The message text `str(e)` printed for an exception. -/
def excMessage : Exc → String
  | Exc.calledProcessError cmd code =>
      "Command " ++ String.intercalate " " cmd ++
        " returned non-zero exit status " ++ toString code ++ "."
  | Exc.fileNotFoundError cmd =>
      "[Errno 2] No such file or directory: " ++ cmd.headD ""

/-- Mutable process state: the tracked filesystem (paths that exist, as
the literal strings the script uses), the current working directory, and
the process environment `os.environ`. -/
structure PyState where
  files : List String
  cwd : String
  environ : Env
deriving DecidableEq

/-- Observable events emitted during a run: a line printed to the
console, an external command execution (`subprocess.run` actually
spawning the child), a `makedirs` call, and a successful `chdir`. -/
inductive Event where
  | print (s : String)
  | exec (command : List String) (env : Option Env) (cwd : Option String)
  | mkdirs (path : String)
  | chdir (path : String)
deriving DecidableEq

/-- How a computation finished: normally with a value, via `sys.exit`
(`SystemExit`, not an `Exception` subclass, so not caught by
`except Exception`), or with an ordinary exception. -/
inductive Outcome (α : Type) where
  | ok (a : α)
  | exited (code : Nat)
  | exn (e : Exc)
deriving DecidableEq

/-- A Python computation: state in, (outcome, state, event trace) out. -/
def M (α : Type) : Type := PyState → Outcome α × PyState × List Event

/-- Return a value, no effects. -/
def M.pure {α : Type} (a : α) : M α := fun s => (Outcome.ok a, s, [])

/-- Sequencing: run the continuation only on normal return; `SystemExit`
and exceptions propagate with the state and trace accumulated so far. -/
def M.bind {α β : Type} (x : M α) (f : α → M β) : M β := fun s =>
  match x s with
  | (Outcome.ok a, s1, tr) =>
      match f a s1 with
      | (r, s2, tr2) => (r, s2, tr ++ tr2)
  | (Outcome.exited c, s1, tr) => (Outcome.exited c, s1, tr)
  | (Outcome.exn e, s1, tr) => (Outcome.exn e, s1, tr)

/-- Model of `print(msg)`. -/
def M.print (msg : String) : M Unit := fun s => (Outcome.ok (), s, [Event.print msg])

/-- Model of `sys.exit(c)`: raises `SystemExit`. -/
def sys_exit (c : Nat) : M Unit := fun s => (Outcome.exited c, s, [])

/-- Model of `os.path.exists(p)` on the tracked filesystem. -/
def os_path_exists (p : String) : M Bool := fun s => (Outcome.ok (s.files.contains p), s, [])

/-- Model of `os.makedirs(p, exist_ok=True)`: records the path as
existing; a no-op on the filesystem if it already exists; never fails. -/
def os_makedirs (p : String) : M Unit := fun s =>
  (Outcome.ok (),
   { s with files := if s.files.contains p then s.files else p :: s.files },
   [Event.mkdirs p])

/-- Model of `os.chdir(p)`: changes the working directory when the
target exists, otherwise raises `FileNotFoundError`. -/
def os_chdir (p : String) : M Unit := fun s =>
  if s.files.contains p then (Outcome.ok (), { s with cwd := p }, [Event.chdir p])
  else (Outcome.exn (Exc.fileNotFoundError [p]), s, [])

/-- Model of `os.environ.copy()`. -/
def os_environ_copy : M Env := fun s => (Outcome.ok s.environ, s, [])

/-- Model of `os.path.join(a, b)` on a POSIX system. -/
def os_path_join (a b : String) : String := a ++ "/" ++ b

/-- The interpreter running the script, `sys.executable`. -/
def sys_executable : String := "python3"

/-- Model of `subprocess.run(command, env=env, cwd=cwd, check=True)`:
consults the oracle; raises `CalledProcessError` on a non-zero exit and
`FileNotFoundError` when the executable cannot be spawned (in which case
no child ran, so no `exec` event and no filesystem effect). -/
def subprocess_run (o : Oracle) (command : List String) (env : Option Env)
    (cwd : Option String) : M Unit := fun s =>
  match o.runCmd command env cwd s.files with
  | (CmdOutcome.exit 0, files2) =>
      (Outcome.ok (), { s with files := files2 }, [Event.exec command env cwd])
  | (CmdOutcome.exit (k + 1), files2) =>
      (Outcome.exn (Exc.calledProcessError command (k + 1)),
       { s with files := files2 }, [Event.exec command env cwd])
  | (CmdOutcome.notFound, _) =>
      (Outcome.exn (Exc.fileNotFoundError command), s, [])

/-- Scoped handler `except subprocess.CalledProcessError as e: ...`:
only that exception class is caught; everything else propagates. -/
def catchCalledProcessError {α : Type} (body : M α) (handler : Exc → M α) : M α := fun s =>
  match body s with
  | (Outcome.exn (Exc.calledProcessError cmd code), s1, tr) =>
      match handler (Exc.calledProcessError cmd code) s1 with
      | (r, s2, tr2) => (r, s2, tr ++ tr2)
  | r => r

/-- Scoped handler `except Exception as e: ...`: catches every ordinary
exception but not `SystemExit`. -/
def catchException {α : Type} (body : M α) (handler : Exc → M α) : M α := fun s =>
  match body s with
  | (Outcome.exn e, s1, tr) =>
      match handler e s1 with
      | (r, s2, tr2) => (r, s2, tr ++ tr2)
  | r => r

/-- Embedding of `run_command(command, env=None, cwd=None)` (src/setup.py
lines 7-17): print the command, run it with `check=True`; on
`CalledProcessError` print the failure and `sys.exit(1)`. -/
def run_command (o : Oracle) (command : List String) (env : Option Env)
    (cwd : Option String) : M Unit :=
  catchCalledProcessError
    (M.bind (M.print ("Running command: " ++ String.intercalate " " command)) (fun _ =>
      subprocess_run o command env cwd))
    (fun e =>
      M.bind (M.print ("Command failed: " ++ String.intercalate " " command)) (fun _ =>
      M.bind (M.print ("Error: " ++ excMessage e)) (fun _ =>
      sys_exit 1)))

/-- Embedding of `install_dependencies()` (lines 20-31). -/
def install_dependencies (o : Oracle) : M Unit :=
  M.bind (M.print "Installing dependencies...") (fun _ =>
  M.bind (run_command o [sys_executable, "-m", "pip", "install", "huggingface_hub[hf_transfer]"] none none) (fun _ =>
  M.bind (run_command o [sys_executable, "-m", "pip", "install", "gradio"] none none) (fun _ =>
  let requirements_file := os_path_join "flux-fp8-api" "requirements.txt"
  M.bind (os_path_exists requirements_file) (fun b =>
  if b then
    run_command o [sys_executable, "-m", "pip", "install", "-r", requirements_file] none none
  else
    M.print ("Requirements file not found: " ++ requirements_file)))))

/-- Embedding of `download_with_huggingface_cli(repo_id, filename,
dest_dir)` (lines 34-46): copies `os.environ`, sets the transfer and
SSL variables on the copy only, and passes the copy to the child. -/
def download_with_huggingface_cli (o : Oracle) (repo_id filename dest_dir : String) : M Unit :=
  M.bind (M.print ("Downloading " ++ repo_id ++ "/" ++ filename ++ " to " ++ dest_dir ++ " using huggingface-cli...")) (fun _ =>
  M.bind os_environ_copy (fun env =>
  let env := setVar env "HF_HUB_ENABLE_HF_TRANSFER" "1"
  let env := setVar env "HF_HUB_DISABLE_SSL_VERIFY" "1"
  M.bind (run_command o ["huggingface-cli", "download", repo_id, filename, "--local-dir", dest_dir] (some env) none) (fun _ =>
  M.print ("Downloaded " ++ filename ++ " successfully to " ++ dest_dir ++ "."))))

/-- The loop body of `setup_files` (lines 55-57): a Python dict is an
ordered association of local filename to (repo id, filename in repo).
The computed `dest_path` is unused, exactly as in the source. -/
def downloadLoop (o : Oracle) (dest_folder : String) :
    List (String × String × String) → M Unit
  | [] => M.pure ()
  | (filename, repo_id, filename_in_repo) :: rest =>
      let dest_path := os_path_join dest_folder filename
      M.bind (download_with_huggingface_cli o repo_id filename_in_repo dest_folder) (fun _ =>
      downloadLoop o dest_folder rest)

/-- Embedding of `setup_files(file_map, dest_folder)` (lines 49-57). -/
def setup_files (o : Oracle) (file_map : List (String × String × String))
    (dest_folder : String) : M Unit :=
  M.bind (os_makedirs dest_folder) (fun _ =>
  downloadLoop o dest_folder file_map)

/-- The `t5_files` dict literal (lines 65-71). -/
def t5_files : List (String × String × String) :=
  [("model.safetensors", ("city96/t5-v1_1-xxl-encoder-bf16", "model.safetensors")),
   ("config.json", ("city96/t5-v1_1-xxl-encoder-bf16", "config.json")),
   ("special_tokens_map.json", ("city96/t5-v1_1-xxl-encoder-bf16", "special_tokens_map.json")),
   ("spiece.model", ("city96/t5-v1_1-xxl-encoder-bf16", "spiece.model")),
   ("tokenizer_config.json", ("city96/t5-v1_1-xxl-encoder-bf16", "tokenizer_config.json"))]

/-- Embedding of `setup_t5_files(dest_folder)` (lines 60-72). -/
def setup_t5_files (o : Oracle) (dest_folder : String) : M Unit :=
  M.bind (M.print "Setting up T5 encoder files...") (fun _ =>
  setup_files o t5_files dest_folder)

/-- Embedding of `setup_model_files(dest_folder)` (lines 75-83). -/
def setup_model_files (o : Oracle) (dest_folder : String) : M Unit :=
  M.bind (M.print "Setting up model files...") (fun _ =>
  setup_files o [("flux1-schnell-fp8-e4m3fn.safetensors", ("Kijai/flux-fp8", "flux1-schnell-fp8-e4m3fn.safetensors"))] dest_folder)

/-- Embedding of `setup_encoder_files(dest_folder)` (lines 86-94). -/
def setup_encoder_files (o : Oracle) (dest_folder : String) : M Unit :=
  M.bind (M.print "Setting up encoder files...") (fun _ =>
  setup_files o [("flux-vae-bf16.safetensors", ("Kijai/flux-fp8", "flux-vae-bf16.safetensors"))] dest_folder)

/-- The fixed clone command of `clone_flux_repository`. -/
def cloneCmd : List String := ["git", "clone", "https://github.com/miike-ai/flux-fp8-api.git"]

/-- Embedding of `clone_flux_repository()` (lines 97-108). -/
def clone_flux_repository (o : Oracle) : M Unit :=
  M.bind (os_path_exists "flux-fp8-api") (fun b =>
  if b then
    M.print "Repository flux-fp8-api already exists. Skipping clone."
  else
    M.bind (M.print "Cloning repository from https://github.com/miike-ai/flux-fp8-api.git...") (fun _ =>
    run_command o cloneCmd none none))

/-- Embedding of `run_main_script(repo_folder)` (lines 111-118). -/
def run_main_script (o : Oracle) (repo_folder : String) : M Unit :=
  M.bind (M.print ("Changing directory to " ++ repo_folder ++ "...")) (fun _ =>
  M.bind (os_chdir repo_folder) (fun _ =>
  M.bind (M.print "Running main_gr.py...") (fun _ =>
  run_command o [sys_executable, "main_gr.py"] none none)))

/-- The body of the top-level `try:` block (lines 125-144). -/
def main_try_body (o : Oracle) : M Unit :=
  M.bind (clone_flux_repository o) (fun _ =>
  let flux_folder := "flux-fp8-api"
  M.bind (install_dependencies o) (fun _ =>
  M.bind (setup_model_files o flux_folder) (fun _ =>
  M.bind (setup_encoder_files o flux_folder) (fun _ =>
  let t5_folder := os_path_join flux_folder "t5"
  M.bind (setup_t5_files o t5_folder) (fun _ =>
  run_main_script o flux_folder)))))

/-- Embedding of the whole `__main__` block (lines 121-152): the start
banner, the guarded body with its `except Exception` handler that prints
the unexpected-error message and exits 1, and the completion-duration
print reached only on normal completion. -/
def script_main (o : Oracle) : M Unit :=
  M.bind (M.print "Starting setup process...") (fun _ =>
  M.bind (catchException (main_try_body o)
    (fun e =>
      M.bind (M.print ("An unexpected error occurred: " ++ excMessage e)) (fun _ =>
      sys_exit 1))) (fun _ =>
  M.print ("\nProcess completed in " ++ o.durationStr ++ " seconds.")))

/-- The operating-system exit status of a whole script run: 0 on normal
completion, the `SystemExit` code when exited, 1 when the interpreter
dies on an uncaught exception. -/
def exit_code (o : Oracle) (s : PyState) : Nat :=
  match (script_main o s).1 with
  | Outcome.ok _ => 0
  | Outcome.exited c => c
  | Outcome.exn _ => 1

/-! Helper lemmas about the sequencing combinator. -/

/-- Sequencing after a normal return. -/
theorem M.bind_ok {α β : Type} {x : M α} {f : α → M β} {s s1 : PyState} {a : α}
    {tr : List Event} (h : x s = (Outcome.ok a, s1, tr)) :
    M.bind x f s = ((f a s1).1, (f a s1).2.1, tr ++ (f a s1).2.2) := by
  rcases hf : f a s1 with ⟨r, s2, tr2⟩
  simp [M.bind, h, hf]

/-- Sequencing after `SystemExit`: the continuation never runs. -/
theorem M.bind_exited {α β : Type} {x : M α} {f : α → M β} {s s1 : PyState} {c : Nat}
    {tr : List Event} (h : x s = (Outcome.exited c, s1, tr)) :
    M.bind x f s = (Outcome.exited c, s1, tr) := by
  simp [M.bind, h]

/-- Sequencing after an exception: the continuation never runs. -/
theorem M.bind_exn {α β : Type} {x : M α} {f : α → M β} {s s1 : PyState} {e : Exc}
    {tr : List Event} (h : x s = (Outcome.exn e, s1, tr)) :
    M.bind x f s = (Outcome.exn e, s1, tr) := by
  simp [M.bind, h]

/-- Complete case analysis of `run_command`: success returns normally
with the print and exec events; a non-zero child exit prints the two
failure lines and raises `SystemExit 1`; a spawn failure propagates the
`FileNotFoundError` with no handling at all. -/
theorem run_command_eq (o : Oracle) (cmd : List String) (env : Option Env)
    (cwd : Option String) (s : PyState) :
    run_command o cmd env cwd s =
      match o.runCmd cmd env cwd s.files with
      | (CmdOutcome.exit 0, files2) =>
          (Outcome.ok (), { s with files := files2 },
           [Event.print ("Running command: " ++ String.intercalate " " cmd),
            Event.exec cmd env cwd])
      | (CmdOutcome.exit (k + 1), files2) =>
          (Outcome.exited 1, { s with files := files2 },
           [Event.print ("Running command: " ++ String.intercalate " " cmd),
            Event.exec cmd env cwd,
            Event.print ("Command failed: " ++ String.intercalate " " cmd),
            Event.print ("Error: " ++ excMessage (Exc.calledProcessError cmd (k + 1)))])
      | (CmdOutcome.notFound, _) =>
          (Outcome.exn (Exc.fileNotFoundError cmd), s,
           [Event.print ("Running command: " ++ String.intercalate " " cmd)]) := by
  rcases hr : o.runCmd cmd env cwd s.files with ⟨out, files2⟩
  cases out with
  | exit code =>
    cases code with
    | zero =>
      simp [run_command, catchCalledProcessError, M.bind, M.print, subprocess_run, sys_exit, hr]
    | succ k =>
      simp [run_command, catchCalledProcessError, M.bind, M.print, subprocess_run, sys_exit, hr]
  | notFound =>
    simp [run_command, catchCalledProcessError, M.bind, M.print, subprocess_run, sys_exit, hr]

/-! Concrete oracles and states used as witnesses. -/

/-- An oracle under which every external command exits with status 2 and
leaves the tracked filesystem unchanged. -/
def failOracle : Oracle :=
  { runCmd := fun _ _ _ fs => (CmdOutcome.exit 2, fs), durationStr := "0.00" }

/-- An oracle under which no executable can ever be spawned. -/
def notFoundOracle : Oracle :=
  { runCmd := fun _ _ _ fs => (CmdOutcome.notFound, fs), durationStr := "0.00" }

/-- A fresh initial state: empty tracked filesystem, some parent
environment. -/
def s0 : PyState := { files := [], cwd := ".", environ := [("PATH", "/usr/bin")] }

/-- A state in which the clone directory already exists. -/
def sClone : PyState := { files := ["flux-fp8-api"], cwd := ".", environ := [] }

/-- Claim C1: whenever a wrapped external command exits non-zero, the
whole process terminates with exit code 1 — `run_command` ends in
`SystemExit 1`, and sequencing any remaining work (further downloads,
the launch step) after it changes nothing: the continuation never
runs. -/
theorem run_command_nonzero_halts (o : Oracle) (cmd : List String) (env : Option Env)
    (cwd : Option String) (s : PyState) (k : Nat) (files2 : List String)
    (h : o.runCmd cmd env cwd s.files = (CmdOutcome.exit (k + 1), files2)) :
    (run_command o cmd env cwd s).1 = Outcome.exited 1 ∧
    ∀ rest : Unit → M Unit,
      M.bind (run_command o cmd env cwd) rest s = run_command o cmd env cwd s := by
  have he := run_command_eq o cmd env cwd s
  rw [h] at he
  refine ⟨by rw [he], fun rest => ?_⟩
  rw [M.bind_exited he, he]

/-- Witness for C1 at a concrete failing command. -/
theorem run_command_nonzero_halts_w :
    (run_command failOracle ["git", "clone"] none none s0).1 = Outcome.exited 1 ∧
    ∀ rest : Unit → M Unit,
      M.bind (run_command failOracle ["git", "clone"] none none) rest s0 =
        run_command failOracle ["git", "clone"] none none s0 :=
  run_command_nonzero_halts failOracle ["git", "clone"] none none s0 1 [] rfl

/-- Claim C2 counterexample: when the executable cannot be found or
spawned, the Command Runner does NOT report the failure and exit 1 — the
`FileNotFoundError` propagates out of `run_command` (its `except` clause
names only `CalledProcessError`), its result is not `SystemExit 1`, and
its trace contains no command-failure message. -/
theorem run_command_spawn_failure_cex :
    (run_command notFoundOracle ["huggingface-cli", "download"] none none s0).1
        = Outcome.exn (Exc.fileNotFoundError ["huggingface-cli", "download"]) ∧
    (run_command notFoundOracle ["huggingface-cli", "download"] none none s0).1
        ≠ Outcome.exited 1 ∧
    ((run_command notFoundOracle ["huggingface-cli", "download"] none none s0).2.2.contains
        (Event.print "Command failed: huggingface-cli download")) = false := by
  refine ⟨rfl, by decide, by decide⟩

/-- Claim C2 (amended): the Command Runner handles only the non-zero
child exit, printing the failure message and terminating the process
with status 1; a spawn failure instead propagates out of the Command
Runner as an exception, uncaught by it. -/
theorem run_command_failure_dichotomy (o : Oracle) (cmd : List String) (env : Option Env)
    (cwd : Option String) (s : PyState) :
    (∀ k files2, o.runCmd cmd env cwd s.files = (CmdOutcome.exit (k + 1), files2) →
        run_command o cmd env cwd s =
          (Outcome.exited 1, { s with files := files2 },
           [Event.print ("Running command: " ++ String.intercalate " " cmd),
            Event.exec cmd env cwd,
            Event.print ("Command failed: " ++ String.intercalate " " cmd),
            Event.print ("Error: " ++ excMessage (Exc.calledProcessError cmd (k + 1)))])) ∧
    (∀ files2, o.runCmd cmd env cwd s.files = (CmdOutcome.notFound, files2) →
        run_command o cmd env cwd s =
          (Outcome.exn (Exc.fileNotFoundError cmd), s,
           [Event.print ("Running command: " ++ String.intercalate " " cmd)])) := by
  have he := run_command_eq o cmd env cwd s
  constructor
  · intro k files2 h
    rw [h] at he
    exact he
  · intro files2 h
    rw [h] at he
    exact he

/-- Witness for the amended C2, exercising both failure kinds. -/
theorem run_command_failure_dichotomy_w :
    run_command failOracle ["pip"] none none s0 =
      (Outcome.exited 1, { s0 with files := [] },
       [Event.print ("Running command: " ++ String.intercalate " " ["pip"]),
        Event.exec ["pip"] none none,
        Event.print ("Command failed: " ++ String.intercalate " " ["pip"]),
        Event.print ("Error: " ++ excMessage (Exc.calledProcessError ["pip"] (1 + 1)))]) ∧
    run_command notFoundOracle ["pip"] none none s0 =
      (Outcome.exn (Exc.fileNotFoundError ["pip"]), s0,
       [Event.print ("Running command: " ++ String.intercalate " " ["pip"])]) :=
  ⟨(run_command_failure_dichotomy failOracle ["pip"] none none s0).1 1 [] rfl,
   (run_command_failure_dichotomy notFoundOracle ["pip"] none none s0).2 [] rfl⟩

/-- Claim C5: whenever the clone directory already exists, the clone
step only prints the skip message — no command is run, and the state is
untouched, for every oracle (hence regardless of whether the existing
directory is a valid, complete, or up-to-date clone). -/
theorem clone_skipped_when_dir_exists (o : Oracle) (s : PyState)
    (h : s.files.contains "flux-fp8-api" = true) :
    clone_flux_repository o s =
      (Outcome.ok (), s,
       [Event.print "Repository flux-fp8-api already exists. Skipping clone."]) := by
  have h2 : "flux-fp8-api" ∈ s.files := by simpa using h
  simp [clone_flux_repository, M.bind, os_path_exists, M.print, h2]

/-- Witness for C5. -/
theorem clone_skipped_when_dir_exists_w :
    clone_flux_repository failOracle sClone =
      (Outcome.ok (), sClone,
       [Event.print "Repository flux-fp8-api already exists. Skipping clone."]) :=
  clone_skipped_when_dir_exists failOracle sClone (by decide)

/-- Claim C7: in every asset collection, the very first event of
`setup_files` is the creation of the destination directory — so the
directory is created before any download is attempted — and directory
creation is idempotent: when the directory already exists `makedirs`
succeeds and leaves the filesystem unchanged. -/
theorem setup_files_mkdir_before_downloads (o : Oracle)
    (fm : List (String × String × String)) (dest : String) (s : PyState) :
    ((setup_files o fm dest s).2.2).head? = some (Event.mkdirs dest) ∧
    (s.files.contains dest = true →
      os_makedirs dest s = (Outcome.ok (), s, [Event.mkdirs dest])) := by
  constructor
  · have h1 : os_makedirs dest s =
        (Outcome.ok (),
         { s with files := if s.files.contains dest then s.files else dest :: s.files },
         [Event.mkdirs dest]) := rfl
    rw [setup_files, M.bind_ok h1]
    simp
  · intro h
    have h2 : dest ∈ s.files := by simpa using h
    simp [os_makedirs, h2]

/-- Witness for C7: directory already present, download tool failing —
the directory-creation event still comes first. -/
theorem setup_files_mkdir_before_downloads_w :
    ((setup_files failOracle [("x.bin", ("repo", "remote.bin"))] "flux-fp8-api" sClone).2.2).head?
        = some (Event.mkdirs "flux-fp8-api") ∧
    os_makedirs "flux-fp8-api" sClone =
      (Outcome.ok (), sClone, [Event.mkdirs "flux-fp8-api"]) :=
  ⟨(setup_files_mkdir_before_downloads failOracle [("x.bin", ("repo", "remote.bin"))] "flux-fp8-api" sClone).1,
   (setup_files_mkdir_before_downloads failOracle [("x.bin", ("repo", "remote.bin"))] "flux-fp8-api" sClone).2 (by decide)⟩

/-- The downloads performed by the loop of `setup_files` depend only on
the values of the file map, never on its local-filename keys. -/
theorem downloadLoop_ignores_keys (o : Oracle) (d : String) :
    ∀ fm1 fm2 : List (String × String × String),
      fm1.map Prod.snd = fm2.map Prod.snd →
      downloadLoop o d fm1 = downloadLoop o d fm2
  | [], [], _ => rfl
  | [], (_, _, _) :: _, h => by simp at h
  | (_, _, _) :: _, [], h => by simp at h
  | (k1, r1, f1) :: t1, (k2, r2, f2) :: t2, h => by
      simp only [List.map_cons, List.cons.injEq, Prod.mk.injEq] at h
      obtain ⟨⟨hr, hf⟩, ht⟩ := h
      simp only [downloadLoop]
      rw [hr, hf, downloadLoop_ignores_keys o d t1 t2 ht]

/-- Claim C9: the local-filename keys of the file map never influence
the behaviour of `setup_files` — any two maps with the same values give
identical computations (the per-file destination path computed from the
key is dead code, and each download receives only the repository id, the
remote filename and the destination directory). -/
theorem setup_files_ignores_keys (o : Oracle) (d : String)
    (fm1 fm2 : List (String × String × String))
    (h : fm1.map Prod.snd = fm2.map Prod.snd) :
    setup_files o fm1 d = setup_files o fm2 d := by
  unfold setup_files
  rw [downloadLoop_ignores_keys o d fm1 fm2 h]

/-- Witness for C9: two maps differing only in their keys. -/
theorem setup_files_ignores_keys_w :
    setup_files failOracle [("local-a.bin", ("repo", "remote.bin"))] "d"
      = setup_files failOracle [("local-b.bin", ("repo", "remote.bin"))] "d" :=
  setup_files_ignores_keys failOracle "d"
    [("local-a.bin", ("repo", "remote.bin"))] [("local-b.bin", ("repo", "remote.bin"))] rfl

/-- An oracle under which every external command succeeds and leaves the
tracked filesystem unchanged. -/
def okOracle : Oracle :=
  { runCmd := fun _ _ _ fs => (CmdOutcome.exit 0, fs), durationStr := "1.00" }

/-- Claim C4: when the requirements file is absent and the two named
package installs succeed, `install_dependencies` performs exactly those
two installs, prints the omission, and returns normally with the state
untouched — the missing file is non-fatal. -/
theorem install_dependencies_missing_requirements (o : Oracle) (s : PyState)
    (h1 : o.runCmd [sys_executable, "-m", "pip", "install", "huggingface_hub[hf_transfer]"]
            none none s.files = (CmdOutcome.exit 0, s.files))
    (h2 : o.runCmd [sys_executable, "-m", "pip", "install", "gradio"]
            none none s.files = (CmdOutcome.exit 0, s.files))
    (h3 : s.files.contains (os_path_join "flux-fp8-api" "requirements.txt") = false) :
    install_dependencies o s =
      (Outcome.ok (), s,
       [Event.print "Installing dependencies...",
        Event.print ("Running command: " ++
          String.intercalate " " [sys_executable, "-m", "pip", "install", "huggingface_hub[hf_transfer]"]),
        Event.exec [sys_executable, "-m", "pip", "install", "huggingface_hub[hf_transfer]"] none none,
        Event.print ("Running command: " ++
          String.intercalate " " [sys_executable, "-m", "pip", "install", "gradio"]),
        Event.exec [sys_executable, "-m", "pip", "install", "gradio"] none none,
        Event.print ("Requirements file not found: " ++ os_path_join "flux-fp8-api" "requirements.txt")]) := by
  have h3m : ¬ os_path_join "flux-fp8-api" "requirements.txt" ∈ s.files := by simpa using h3
  simp [install_dependencies, M.bind, M.print, os_path_exists, run_command_eq, h1, h2, h3m]

/-- Witness for C4: fresh filesystem, succeeding package manager. -/
theorem install_dependencies_missing_requirements_w :
    install_dependencies okOracle s0 =
      (Outcome.ok (), s0,
       [Event.print "Installing dependencies...",
        Event.print ("Running command: " ++
          String.intercalate " " [sys_executable, "-m", "pip", "install", "huggingface_hub[hf_transfer]"]),
        Event.exec [sys_executable, "-m", "pip", "install", "huggingface_hub[hf_transfer]"] none none,
        Event.print ("Running command: " ++
          String.intercalate " " [sys_executable, "-m", "pip", "install", "gradio"]),
        Event.exec [sys_executable, "-m", "pip", "install", "gradio"] none none,
        Event.print ("Requirements file not found: " ++ os_path_join "flux-fp8-api" "requirements.txt")]) :=
  install_dependencies_missing_requirements okOracle s0 rfl rfl (by decide)

/-- Claim C6: a download sets the accelerated-transfer and
TLS-verification-disable variables only on the environment handed to the
download subprocess — every `exec` event it emits carries exactly the
copied-and-extended environment — while the environment of the parent
process is unchanged in the resulting state, whatever the outcome. -/
theorem download_env_isolation (o : Oracle) (repo_id filename dest_dir : String)
    (s : PyState) :
    ((download_with_huggingface_cli o repo_id filename dest_dir s).2.1).environ = s.environ ∧
    (∀ cmd e w,
      Event.exec cmd e w ∈ (download_with_huggingface_cli o repo_id filename dest_dir s).2.2 →
      e = some (setVar (setVar s.environ "HF_HUB_ENABLE_HF_TRANSFER" "1")
                  "HF_HUB_DISABLE_SSL_VERIFY" "1")) := by
  have he := run_command_eq o ["huggingface-cli", "download", repo_id, filename, "--local-dir", dest_dir]
      (some (setVar (setVar s.environ "HF_HUB_ENABLE_HF_TRANSFER" "1") "HF_HUB_DISABLE_SSL_VERIFY" "1"))
      none s
  rcases hr : o.runCmd ["huggingface-cli", "download", repo_id, filename, "--local-dir", dest_dir]
      (some (setVar (setVar s.environ "HF_HUB_ENABLE_HF_TRANSFER" "1") "HF_HUB_DISABLE_SSL_VERIFY" "1"))
      none s.files with ⟨out, files2⟩
  rw [hr] at he
  cases out with
  | exit code =>
    cases code with
    | zero =>
      constructor
      · simp [download_with_huggingface_cli, M.bind, M.print, os_environ_copy, he]
      · intro cmd e w hm
        simp [download_with_huggingface_cli, M.bind, M.print, os_environ_copy, he] at hm
        exact hm.2.1
    | succ k =>
      constructor
      · simp [download_with_huggingface_cli, M.bind, M.print, os_environ_copy, he]
      · intro cmd e w hm
        simp [download_with_huggingface_cli, M.bind, M.print, os_environ_copy, he] at hm
        exact hm.2.1
  | notFound =>
    constructor
    · simp [download_with_huggingface_cli, M.bind, M.print, os_environ_copy, he]
    · intro cmd e w hm
      simp [download_with_huggingface_cli, M.bind, M.print, os_environ_copy, he] at hm

/-- Witness for C6 at a concrete download, naming the emitted exec
event explicitly. -/
theorem download_env_isolation_w :
    ((download_with_huggingface_cli okOracle "Kijai/flux-fp8" "flux-vae-bf16.safetensors" "flux-fp8-api" s0).2.1).environ
        = s0.environ ∧
    (some (setVar (setVar s0.environ "HF_HUB_ENABLE_HF_TRANSFER" "1") "HF_HUB_DISABLE_SSL_VERIFY" "1")
        : Option Env)
      = some (setVar (setVar s0.environ "HF_HUB_ENABLE_HF_TRANSFER" "1") "HF_HUB_DISABLE_SSL_VERIFY" "1") :=
  ⟨(download_env_isolation okOracle "Kijai/flux-fp8" "flux-vae-bf16.safetensors" "flux-fp8-api" s0).1,
   (download_env_isolation okOracle "Kijai/flux-fp8" "flux-vae-bf16.safetensors" "flux-fp8-api" s0).2
     ["huggingface-cli", "download", "Kijai/flux-fp8", "flux-vae-bf16.safetensors", "--local-dir", "flux-fp8-api"]
     (some (setVar (setVar s0.environ "HF_HUB_ENABLE_HF_TRANSFER" "1") "HF_HUB_DISABLE_SSL_VERIFY" "1")) none
     (by decide)⟩

/-- Claim C8: the launcher first changes the working directory to the
repository root, then invokes the entry script via the interpreter
running the setup script, with no further arguments, no environment
override and no cwd override, awaiting the child; the final state has
the repository as working directory. -/
theorem run_main_script_behavior (o : Oracle) (repo : String) (s : PyState)
    (k : Nat) (files2 : List String)
    (h1 : s.files.contains repo = true)
    (h2 : o.runCmd [sys_executable, "main_gr.py"] none none s.files = (CmdOutcome.exit k, files2)) :
    ((run_main_script o repo s).2.2).take 5 =
      [Event.print ("Changing directory to " ++ repo ++ "..."),
       Event.chdir repo,
       Event.print "Running main_gr.py...",
       Event.print ("Running command: " ++ String.intercalate " " [sys_executable, "main_gr.py"]),
       Event.exec [sys_executable, "main_gr.py"] none none] ∧
    ((run_main_script o repo s).2.1).cwd = repo := by
  have h1m : repo ∈ s.files := by simpa using h1
  cases k with
  | zero =>
    simp [run_main_script, M.bind, M.print, os_chdir, h1m, run_command_eq, h2]
  | succ k =>
    simp [run_main_script, M.bind, M.print, os_chdir, h1m, run_command_eq, h2]

/-- Witness for C8 with a successfully launching entry script. -/
theorem run_main_script_behavior_w :
    ((run_main_script okOracle "flux-fp8-api" sClone).2.2).take 5 =
      [Event.print ("Changing directory to " ++ "flux-fp8-api" ++ "..."),
       Event.chdir "flux-fp8-api",
       Event.print "Running main_gr.py...",
       Event.print ("Running command: " ++ String.intercalate " " [sys_executable, "main_gr.py"]),
       Event.exec [sys_executable, "main_gr.py"] none none] ∧
    ((run_main_script okOracle "flux-fp8-api" sClone).2.1).cwd = "flux-fp8-api" :=
  run_main_script_behavior okOracle "flux-fp8-api" sClone 0 ["flux-fp8-api"] (by decide) rfl

/-! The fresh-run scenario: no prior state, every external command
succeeds, and the clone materialises the repository directory together
with its requirements file. -/

/-- External behaviour of a fully working environment: every command
exits 0; the git clone creates the repository directory and its
requirements file; nothing else touches the tracked filesystem. -/
def happyRun (cmd : List String) (_ : Option Env) (_ : Option String) (fs : List String) :
    CmdOutcome × List String :=
  if cmd = cloneCmd then
    (CmdOutcome.exit 0, "flux-fp8-api" :: os_path_join "flux-fp8-api" "requirements.txt" :: fs)
  else (CmdOutcome.exit 0, fs)

/-- The fully working oracle, reporting a run duration of 42.00 s. -/
def happyOracle : Oracle := { runCmd := happyRun, durationStr := "42.00" }

/-- Observation: an event is an invocation of the hub download client. -/
def isDownloadExec : Event → Bool
  | Event.exec cmd _ _ => cmd.headD "" == "huggingface-cli"
  | _ => false

/-- Observation: an event is a package-manager install invocation. -/
def isPipInstallExec : Event → Bool
  | Event.exec cmd _ _ => cmd.take 4 == [sys_executable, "-m", "pip", "install"]
  | _ => false

/-- Observation: an event is a git clone invocation. -/
def isGitCloneExec : Event → Bool
  | Event.exec cmd _ _ => cmd.take 2 == ["git", "clone"]
  | _ => false

/-- The final state of the fresh run under the working oracle. -/
def sHappyEnd : PyState :=
  { files := ["flux-fp8-api/t5", "flux-fp8-api", "flux-fp8-api/requirements.txt"],
    cwd := "flux-fp8-api",
    environ := [("PATH", "/usr/bin")] }

/-- The subprocess environment every download passes to the hub client
in the fresh run: the parent environment plus the two toggles. -/
def happyDlEnv : Option Env :=
  some [("PATH", "/usr/bin"), ("HF_HUB_ENABLE_HF_TRANSFER", "1"), ("HF_HUB_DISABLE_SSL_VERIFY", "1")]

/-- The complete event trace of the fresh run under the working
oracle. -/
def happyTrace : List Event :=
  [Event.print "Starting setup process...",
   Event.print "Cloning repository from https://github.com/miike-ai/flux-fp8-api.git...",
   Event.print "Running command: git clone https://github.com/miike-ai/flux-fp8-api.git",
   Event.exec ["git", "clone", "https://github.com/miike-ai/flux-fp8-api.git"] none none,
   Event.print "Installing dependencies...",
   Event.print "Running command: python3 -m pip install huggingface_hub[hf_transfer]",
   Event.exec ["python3", "-m", "pip", "install", "huggingface_hub[hf_transfer]"] none none,
   Event.print "Running command: python3 -m pip install gradio",
   Event.exec ["python3", "-m", "pip", "install", "gradio"] none none,
   Event.print "Running command: python3 -m pip install -r flux-fp8-api/requirements.txt",
   Event.exec ["python3", "-m", "pip", "install", "-r", "flux-fp8-api/requirements.txt"] none none,
   Event.print "Setting up model files...",
   Event.mkdirs "flux-fp8-api",
   Event.print "Downloading Kijai/flux-fp8/flux1-schnell-fp8-e4m3fn.safetensors to flux-fp8-api using huggingface-cli...",
   Event.print "Running command: huggingface-cli download Kijai/flux-fp8 flux1-schnell-fp8-e4m3fn.safetensors --local-dir flux-fp8-api",
   Event.exec ["huggingface-cli", "download", "Kijai/flux-fp8", "flux1-schnell-fp8-e4m3fn.safetensors", "--local-dir", "flux-fp8-api"] happyDlEnv none,
   Event.print "Downloaded flux1-schnell-fp8-e4m3fn.safetensors successfully to flux-fp8-api.",
   Event.print "Setting up encoder files...",
   Event.mkdirs "flux-fp8-api",
   Event.print "Downloading Kijai/flux-fp8/flux-vae-bf16.safetensors to flux-fp8-api using huggingface-cli...",
   Event.print "Running command: huggingface-cli download Kijai/flux-fp8 flux-vae-bf16.safetensors --local-dir flux-fp8-api",
   Event.exec ["huggingface-cli", "download", "Kijai/flux-fp8", "flux-vae-bf16.safetensors", "--local-dir", "flux-fp8-api"] happyDlEnv none,
   Event.print "Downloaded flux-vae-bf16.safetensors successfully to flux-fp8-api.",
   Event.print "Setting up T5 encoder files...",
   Event.mkdirs "flux-fp8-api/t5",
   Event.print "Downloading city96/t5-v1_1-xxl-encoder-bf16/model.safetensors to flux-fp8-api/t5 using huggingface-cli...",
   Event.print "Running command: huggingface-cli download city96/t5-v1_1-xxl-encoder-bf16 model.safetensors --local-dir flux-fp8-api/t5",
   Event.exec ["huggingface-cli", "download", "city96/t5-v1_1-xxl-encoder-bf16", "model.safetensors", "--local-dir", "flux-fp8-api/t5"] happyDlEnv none,
   Event.print "Downloaded model.safetensors successfully to flux-fp8-api/t5.",
   Event.print "Downloading city96/t5-v1_1-xxl-encoder-bf16/config.json to flux-fp8-api/t5 using huggingface-cli...",
   Event.print "Running command: huggingface-cli download city96/t5-v1_1-xxl-encoder-bf16 config.json --local-dir flux-fp8-api/t5",
   Event.exec ["huggingface-cli", "download", "city96/t5-v1_1-xxl-encoder-bf16", "config.json", "--local-dir", "flux-fp8-api/t5"] happyDlEnv none,
   Event.print "Downloaded config.json successfully to flux-fp8-api/t5.",
   Event.print "Downloading city96/t5-v1_1-xxl-encoder-bf16/special_tokens_map.json to flux-fp8-api/t5 using huggingface-cli...",
   Event.print "Running command: huggingface-cli download city96/t5-v1_1-xxl-encoder-bf16 special_tokens_map.json --local-dir flux-fp8-api/t5",
   Event.exec ["huggingface-cli", "download", "city96/t5-v1_1-xxl-encoder-bf16", "special_tokens_map.json", "--local-dir", "flux-fp8-api/t5"] happyDlEnv none,
   Event.print "Downloaded special_tokens_map.json successfully to flux-fp8-api/t5.",
   Event.print "Downloading city96/t5-v1_1-xxl-encoder-bf16/spiece.model to flux-fp8-api/t5 using huggingface-cli...",
   Event.print "Running command: huggingface-cli download city96/t5-v1_1-xxl-encoder-bf16 spiece.model --local-dir flux-fp8-api/t5",
   Event.exec ["huggingface-cli", "download", "city96/t5-v1_1-xxl-encoder-bf16", "spiece.model", "--local-dir", "flux-fp8-api/t5"] happyDlEnv none,
   Event.print "Downloaded spiece.model successfully to flux-fp8-api/t5.",
   Event.print "Downloading city96/t5-v1_1-xxl-encoder-bf16/tokenizer_config.json to flux-fp8-api/t5 using huggingface-cli...",
   Event.print "Running command: huggingface-cli download city96/t5-v1_1-xxl-encoder-bf16 tokenizer_config.json --local-dir flux-fp8-api/t5",
   Event.exec ["huggingface-cli", "download", "city96/t5-v1_1-xxl-encoder-bf16", "tokenizer_config.json", "--local-dir", "flux-fp8-api/t5"] happyDlEnv none,
   Event.print "Downloaded tokenizer_config.json successfully to flux-fp8-api/t5.",
   Event.print "Changing directory to flux-fp8-api...",
   Event.chdir "flux-fp8-api",
   Event.print "Running main_gr.py...",
   Event.print "Running command: python3 main_gr.py",
   Event.exec ["python3", "main_gr.py"] none none,
   Event.print "\nProcess completed in 42.00 seconds."]

set_option maxHeartbeats 1000000 in
/-- The fresh run under the working oracle, evaluated completely. -/
theorem happy_script_eval :
    script_main happyOracle s0 = (Outcome.ok (), sHappyEnd, happyTrace) := by
  simp [script_main, main_try_body, clone_flux_repository, install_dependencies,
    setup_model_files, setup_encoder_files, setup_t5_files, setup_files, t5_files,
    downloadLoop, download_with_huggingface_cli, run_main_script, run_command,
    catchCalledProcessError, catchException, subprocess_run, sys_exit,
    M.bind, M.print, M.pure, os_path_exists, os_makedirs, os_chdir, os_environ_copy,
    os_path_join, sys_executable, setVar, happyOracle, happyRun, cloneCmd, s0,
    String.intercalate, String.intercalate.go, List.intercalate, List.intersperse,
    sHappyEnd, happyTrace, happyDlEnv]

/-- Claim C3 counterexample: in the fresh run where every external
command succeeds, the number of file downloads performed is not eight —
the script invokes the download client once per entry of its three file
maps, which hold 1 + 1 + 5 = 7 files. -/
theorem fresh_run_eight_downloads_cex :
    ¬ ((script_main happyOracle s0).2.2).countP isDownloadExec = 8 := by
  rw [happy_script_eval]
  decide

/-- Claim C3 (amended): a run starting with no prior state performs one
clone, three package installs, exactly seven file downloads (1 model +
1 decoder + 5 encoder files, with destination directories auto-created),
changes the working directory, launches the entry script, prints a
completion duration last, and exits with code 0. -/
theorem fresh_run_scenario :
    exit_code happyOracle s0 = 0 ∧
    ((script_main happyOracle s0).2.2).countP isGitCloneExec = 1 ∧
    ((script_main happyOracle s0).2.2).countP isPipInstallExec = 3 ∧
    ((script_main happyOracle s0).2.2).countP isDownloadExec = 7 ∧
    Event.mkdirs "flux-fp8-api" ∈ (script_main happyOracle s0).2.2 ∧
    Event.mkdirs (os_path_join "flux-fp8-api" "t5") ∈ (script_main happyOracle s0).2.2 ∧
    Event.chdir "flux-fp8-api" ∈ (script_main happyOracle s0).2.2 ∧
    Event.exec [sys_executable, "main_gr.py"] none none ∈ (script_main happyOracle s0).2.2 ∧
    ((script_main happyOracle s0).2.2).getLast? =
      some (Event.print ("\nProcess completed in " ++ happyOracle.durationStr ++ " seconds.")) := by
  refine ⟨?_, ?_, ?_, ?_, ?_, ?_, ?_, ?_, ?_⟩ <;>
    simp only [exit_code, happy_script_eval] <;> decide

/-! Exit-code analysis: the only `sys.exit` call reachable inside the
try block is the Command Runner's `sys.exit(1)`, so every `SystemExit`
raised by the body carries code 1. -/

/-- A computation raises `SystemExit` only with code 1. -/
def exitsOnlyOne {α : Type} (m : M α) : Prop :=
  ∀ s c, (m s).1 = Outcome.exited c → c = 1

/-- Sequencing preserves the exit-code property. -/
theorem exitsOnlyOne_bind {α β : Type} {x : M α} {f : α → M β}
    (hx : exitsOnlyOne x) (hf : ∀ a, exitsOnlyOne (f a)) :
    exitsOnlyOne (M.bind x f) := by
  intro s c h
  rcases hx2 : x s with ⟨out, s1, tr⟩
  cases out with
  | ok a =>
    rw [M.bind_ok hx2] at h
    exact hf a s1 c h
  | exited c2 =>
    rw [M.bind_exited hx2] at h
    have hc : c2 = c := by simpa using h
    subst hc
    exact hx s c2 (by rw [hx2])
  | exn e =>
    rw [M.bind_exn hx2] at h
    simp at h

/-- Pure values never exit. -/
theorem exitsOnlyOne_pure {α : Type} (a : α) : exitsOnlyOne (M.pure a) := by
  intro s c h
  simp [M.pure] at h

/-- Printing never exits. -/
theorem exitsOnlyOne_print (msg : String) : exitsOnlyOne (M.print msg) := by
  intro s c h
  simp [M.print] at h

/-- Existence checks never exit. -/
theorem exitsOnlyOne_os_path_exists (p : String) : exitsOnlyOne (os_path_exists p) := by
  intro s c h
  simp [os_path_exists] at h

/-- Directory creation never exits. -/
theorem exitsOnlyOne_os_makedirs (p : String) : exitsOnlyOne (os_makedirs p) := by
  intro s c h
  simp [os_makedirs] at h

/-- Directory changes never exit (they can only raise an exception). -/
theorem exitsOnlyOne_os_chdir (p : String) : exitsOnlyOne (os_chdir p) := by
  intro s c h
  by_cases hm : p ∈ s.files <;> simp [os_chdir, hm] at h

/-- Environment copying never exits. -/
theorem exitsOnlyOne_os_environ_copy : exitsOnlyOne os_environ_copy := by
  intro s c h
  simp [os_environ_copy] at h

/-- The Command Runner exits only with code 1. -/
theorem exitsOnlyOne_run_command (o : Oracle) (cmd : List String) (env : Option Env)
    (cwd : Option String) : exitsOnlyOne (run_command o cmd env cwd) := by
  intro s c h
  have he := run_command_eq o cmd env cwd s
  rcases hr : o.runCmd cmd env cwd s.files with ⟨out, files2⟩
  rw [hr] at he
  cases out with
  | exit code =>
    cases code with
    | zero =>
      rw [he] at h
      simp at h
    | succ k =>
      rw [he] at h
      have : 1 = c := by simpa using h
      omega
  | notFound =>
    rw [he] at h
    simp at h

/-- Downloads exit only with code 1. -/
theorem exitsOnlyOne_download (o : Oracle) (r f d : String) :
    exitsOnlyOne (download_with_huggingface_cli o r f d) := by
  unfold download_with_huggingface_cli
  refine exitsOnlyOne_bind (exitsOnlyOne_print _) (fun _ => ?_)
  refine exitsOnlyOne_bind exitsOnlyOne_os_environ_copy (fun env => ?_)
  exact exitsOnlyOne_bind (exitsOnlyOne_run_command _ _ _ _) (fun _ => exitsOnlyOne_print _)

/-- The download loop exits only with code 1. -/
theorem exitsOnlyOne_downloadLoop (o : Oracle) (d : String) :
    ∀ fm : List (String × String × String), exitsOnlyOne (downloadLoop o d fm)
  | [] => exitsOnlyOne_pure ()
  | (k, r, f) :: rest => by
      simp only [downloadLoop]
      exact exitsOnlyOne_bind (exitsOnlyOne_download o r f d)
        (fun _ => exitsOnlyOne_downloadLoop o d rest)

/-- `setup_files` exits only with code 1. -/
theorem exitsOnlyOne_setup_files (o : Oracle) (fm : List (String × String × String))
    (d : String) : exitsOnlyOne (setup_files o fm d) := by
  unfold setup_files
  exact exitsOnlyOne_bind (exitsOnlyOne_os_makedirs d) (fun _ => exitsOnlyOne_downloadLoop o d fm)

/-- `setup_t5_files` exits only with code 1. -/
theorem exitsOnlyOne_setup_t5_files (o : Oracle) (d : String) :
    exitsOnlyOne (setup_t5_files o d) := by
  unfold setup_t5_files
  exact exitsOnlyOne_bind (exitsOnlyOne_print _) (fun _ => exitsOnlyOne_setup_files o _ d)

/-- `setup_model_files` exits only with code 1. -/
theorem exitsOnlyOne_setup_model_files (o : Oracle) (d : String) :
    exitsOnlyOne (setup_model_files o d) := by
  unfold setup_model_files
  exact exitsOnlyOne_bind (exitsOnlyOne_print _) (fun _ => exitsOnlyOne_setup_files o _ d)

/-- `setup_encoder_files` exits only with code 1. -/
theorem exitsOnlyOne_setup_encoder_files (o : Oracle) (d : String) :
    exitsOnlyOne (setup_encoder_files o d) := by
  unfold setup_encoder_files
  exact exitsOnlyOne_bind (exitsOnlyOne_print _) (fun _ => exitsOnlyOne_setup_files o _ d)

/-- `install_dependencies` exits only with code 1. -/
theorem exitsOnlyOne_install_dependencies (o : Oracle) :
    exitsOnlyOne (install_dependencies o) := by
  unfold install_dependencies
  refine exitsOnlyOne_bind (exitsOnlyOne_print _) (fun _ => ?_)
  refine exitsOnlyOne_bind (exitsOnlyOne_run_command _ _ _ _) (fun _ => ?_)
  refine exitsOnlyOne_bind (exitsOnlyOne_run_command _ _ _ _) (fun _ => ?_)
  refine exitsOnlyOne_bind (exitsOnlyOne_os_path_exists _) (fun b => ?_)
  cases b
  · exact exitsOnlyOne_print _
  · exact exitsOnlyOne_run_command _ _ _ _

/-- The clone step exits only with code 1. -/
theorem exitsOnlyOne_clone (o : Oracle) : exitsOnlyOne (clone_flux_repository o) := by
  unfold clone_flux_repository
  refine exitsOnlyOne_bind (exitsOnlyOne_os_path_exists _) (fun b => ?_)
  cases b
  · exact exitsOnlyOne_bind (exitsOnlyOne_print _) (fun _ => exitsOnlyOne_run_command _ _ _ _)
  · exact exitsOnlyOne_print _

/-- The launcher exits only with code 1. -/
theorem exitsOnlyOne_run_main_script (o : Oracle) (rf : String) :
    exitsOnlyOne (run_main_script o rf) := by
  unfold run_main_script
  refine exitsOnlyOne_bind (exitsOnlyOne_print _) (fun _ => ?_)
  refine exitsOnlyOne_bind (exitsOnlyOne_os_chdir _) (fun _ => ?_)
  exact exitsOnlyOne_bind (exitsOnlyOne_print _) (fun _ => exitsOnlyOne_run_command _ _ _ _)

/-- The whole guarded body exits only with code 1. -/
theorem exitsOnlyOne_main_try_body (o : Oracle) : exitsOnlyOne (main_try_body o) := by
  unfold main_try_body
  refine exitsOnlyOne_bind (exitsOnlyOne_clone o) (fun _ => ?_)
  refine exitsOnlyOne_bind (exitsOnlyOne_install_dependencies o) (fun _ => ?_)
  refine exitsOnlyOne_bind (exitsOnlyOne_setup_model_files o _) (fun _ => ?_)
  refine exitsOnlyOne_bind (exitsOnlyOne_setup_encoder_files o _) (fun _ => ?_)
  refine exitsOnlyOne_bind (exitsOnlyOne_setup_t5_files o _) (fun _ => ?_)
  exact exitsOnlyOne_run_main_script o _

/-- Claim C10: the top-level handler catches only ordinary exceptions,
never the `SystemExit` raised by the Command Runner, and the two failure
kinds are mutually exclusive in output. When the guarded body raises
`SystemExit c`, the code is 1 and the whole script output is exactly the
start banner plus the body trace — the unexpected-error message is never
appended. When the body raises an ordinary exception, the script appends
exactly the unexpected-error message and terminates via `SystemExit 1`;
so the exit code is 1 on both paths. -/
theorem toplevel_exit_handling (o : Oracle) (s : PyState) :
    (∀ c s1 tr, main_try_body o s = (Outcome.exited c, s1, tr) →
       c = 1 ∧ script_main o s =
         (Outcome.exited c, s1, Event.print "Starting setup process..." :: tr)) ∧
    (∀ e s1 tr, main_try_body o s = (Outcome.exn e, s1, tr) →
       script_main o s =
         (Outcome.exited 1, s1,
          Event.print "Starting setup process..." ::
            (tr ++ [Event.print ("An unexpected error occurred: " ++ excMessage e)]))) := by
  constructor
  · intro c s1 tr h
    refine ⟨exitsOnlyOne_main_try_body o s c (by rw [h]), ?_⟩
    have hcatch : catchException (main_try_body o)
        (fun e => M.bind (M.print ("An unexpected error occurred: " ++ excMessage e))
          (fun _ => sys_exit 1)) s = (Outcome.exited c, s1, tr) := by
      simp [catchException, h]
    simp [script_main, M.bind, M.print, hcatch]
  · intro e s1 tr h
    have hcatch : catchException (main_try_body o)
        (fun e2 => M.bind (M.print ("An unexpected error occurred: " ++ excMessage e2))
          (fun _ => sys_exit 1)) s
        = (Outcome.exited 1, s1,
           tr ++ [Event.print ("An unexpected error occurred: " ++ excMessage e)]) := by
      simp [catchException, h, M.bind, M.print, sys_exit]
    simp [script_main, M.bind, M.print, hcatch]

/-- Witness for C10: a failing clone command (the `SystemExit` path,
with no unexpected-error line) and an unspawnable git executable (the
exception path, ending in the unexpected-error line), both exiting 1. -/
theorem toplevel_exit_handling_w :
    (1 = 1 ∧ script_main failOracle s0 =
      (Outcome.exited 1, s0,
       Event.print "Starting setup process..." ::
         [Event.print "Cloning repository from https://github.com/miike-ai/flux-fp8-api.git...",
          Event.print ("Running command: " ++ String.intercalate " " cloneCmd),
          Event.exec cloneCmd none none,
          Event.print ("Command failed: " ++ String.intercalate " " cloneCmd),
          Event.print ("Error: " ++ excMessage (Exc.calledProcessError cloneCmd 2))])) ∧
    script_main notFoundOracle s0 =
      (Outcome.exited 1, s0,
       Event.print "Starting setup process..." ::
         ([Event.print "Cloning repository from https://github.com/miike-ai/flux-fp8-api.git...",
           Event.print ("Running command: " ++ String.intercalate " " cloneCmd)] ++
          [Event.print ("An unexpected error occurred: " ++
            excMessage (Exc.fileNotFoundError cloneCmd))])) :=
  ⟨(toplevel_exit_handling failOracle s0).1 1 s0
      [Event.print "Cloning repository from https://github.com/miike-ai/flux-fp8-api.git...",
       Event.print ("Running command: " ++ String.intercalate " " cloneCmd),
       Event.exec cloneCmd none none,
       Event.print ("Command failed: " ++ String.intercalate " " cloneCmd),
       Event.print ("Error: " ++ excMessage (Exc.calledProcessError cloneCmd 2))] rfl,
   (toplevel_exit_handling notFoundOracle s0).2 (Exc.fileNotFoundError cloneCmd) s0
      [Event.print "Cloning repository from https://github.com/miike-ai/flux-fp8-api.git...",
       Event.print ("Running command: " ++ String.intercalate " " cloneCmd)] rfl⟩

end FluxSetup
